import Mathlib

/-!
Verification of `pypaperutils` (point-to-line measurement, TU Delft color
palette, pgf figure export) against its natural-language specification.

Numeric values are modelled as real numbers (`ℝ`) for the geometry in
`measure.py` and as exact rationals (`ℚ`) for the color palette in
`design.py`.  Fallible operations return `Except String`.
-/

namespace Pypaperutils

/-- A 2-D point, as the coordinate pairs passed to `measure.py`. -/
abbrev Point := ℝ × ℝ

noncomputable section

/-- Embedding of `measure.distance_to_line` (src/pypaperutils/measure.py).
Computes the general-form line coefficients `a`, `b`, `c`, the distance
`|a·x₀+b·y₀+c| / sqrt (a²+b²)` and the closed-form foot of the perpendicular,
then applies the two sequential overrides for horizontal (`a == 0`) and
vertical (`b == 0`) lines exactly as the Python code does. -/
def distance_to_line (p0 p1 p2 : Point) : ℝ × Point :=
  let a := p1.2 - p2.2
  let b := p2.1 - p1.1
  let c := p1.1 * p2.2 - p1.2 * p2.1
  let d := |a * p0.1 + b * p0.2 + c| / Real.sqrt (a ^ 2 + b ^ 2)
  let pc : Point :=
    ((b * (b * p0.1 - a * p0.2) - a * c) / (a ^ 2 + b ^ 2),
     (a * (-(b * p0.1) + a * p0.2) - b * c) / (a ^ 2 + b ^ 2))
  let d := if a = 0 then |p1.2 - p0.2| else d
  let pc := if a = 0 then (p0.1, p1.2) else pc
  let d := if b = 0 then |p1.1 - p0.1| else d
  let pc := if b = 0 then (p1.1, p0.2) else pc
  (d, pc)

/-- `p0` lies on the line through `p1` and `p2` (parametric form). -/
def onLine (p0 p1 p2 : Point) : Prop :=
  ∃ t : ℝ, p0.1 = p1.1 + t * (p2.1 - p1.1) ∧ p0.2 = p1.2 + t * (p2.2 - p1.2)

/-- Model of `numpy.arctan2 y x`: the argument of the complex number
`x + y·i`. -/
def arctan2 (y x : ℝ) : ℝ := Complex.arg ⟨x, y⟩

end

/-- A drawing primitive appended to a matplotlib axes object: either a
`plot` call (x-coordinates, y-coordinates, color, linewidth, linestyle) or
a `scatter` call (x-coordinates, y-coordinates). -/
inductive AxCmd where
  | plot (xs ys : List ℝ) (color : String) (lw : ℝ) (linestyle : String)
  | scatter (xs ys : List ℝ)

noncomputable section

/-- Embedding of `measure.draw_distance_to_line`
(src/pypaperutils/measure.py).  The matplotlib axes is modelled as the list
of primitives drawn onto it so far; the function returns the axes extended
by the primitives it draws together with the `(distance, foot)` pair.  The
four `plot` calls carry the hard-coded widths `1`, `1`, `1`, `0.5` of the
source; the `linewidth` parameter is accepted but, as in the source, never
passed on. -/
def draw_distance_to_line (ax : List AxCmd) (p0 p1 p2 : Point)
    (offset : ℝ) (width : ℝ) (drawPoints : Bool) (linewidth : ℝ)
    (color : String) : List AxCmd × (ℝ × Point) :=
  let phi := arctan2 (p2.2 - p1.2) (p2.1 - p1.1)
  let dpc := distance_to_line p0 p1 p2
  let d := dpc.1
  let pc := dpc.2
  let a := Real.sign offset
  let a := if a = 0 then 1 else a
  let cmds : List AxCmd :=
    [AxCmd.plot [pc.1 + offset * Real.cos phi, p0.1 + offset * Real.cos phi]
        [pc.2 + offset * Real.sin phi, p0.2 + offset * Real.sin phi]
        color 1 "-",
     AxCmd.plot
        [pc.1 + (-a * width + offset) * Real.cos phi,
         pc.1 + (a * width + offset) * Real.cos phi]
        [pc.2 + (-a * width + offset) * Real.sin phi,
         pc.2 + (a * width + offset) * Real.sin phi]
        color 1 "-",
     AxCmd.plot
        [p0.1 + (-a * width + offset) * Real.cos phi,
         p0.1 + (a * width + offset) * Real.cos phi]
        [p0.2 + (-a * width + offset) * Real.sin phi,
         p0.2 + (a * width + offset) * Real.sin phi]
        color 1 "-",
     AxCmd.plot [p0.1, p0.1 + offset * Real.cos phi]
        [p0.2, p0.2 + offset * Real.sin phi]
        color 0.5 "--"]
  let cmds := cmds ++
    (if drawPoints then
      [AxCmd.scatter [p0.1, p1.1, p2.1, pc.1] [p0.2, p1.2, p2.2, pc.2]]
    else [])
  (ax ++ cmds, (d, pc))

end

/-- The fixed 12-entry RGB palette `TUDcolors.PALETTE`
(src/pypaperutils/design.py), integer channels in `[0, 255]` embedded in
`ℚ`. -/
def PALETTE : List (ℚ × ℚ × ℚ) :=
  [(0, 166, 214), (12, 35, 64), (0, 184, 200), (0, 118, 194),
   (111, 29, 119), (239, 96, 163), (165, 0, 52), (224, 60, 49),
   (237, 104, 66), (255, 184, 28), (108, 194, 74), (0, 155, 119)]

/-- The fixed color names `TUDcolors.COLORNAMES`, order-aligned with
`PALETTE`. -/
def COLORNAMES : List String :=
  ["cyaan", "donkerblauw", "turkoois", "blauw", "paars", "roze",
   "framboos", "rood", "oranje", "geel", "lichtgroen", "donkergroen"]

/-- The dictionary `self.colors = dict(zip(COLORNAMES, PALETTE))` built in
`TUDcolors.__init__`. -/
def colorsDict : List (String × (ℚ × ℚ × ℚ)) := COLORNAMES.zip PALETTE

/-- A scalar color identifier passed to `TUDcolors.get`: a name string or a
palette index, mirroring the `isinstance(colors[0], str)` /
`isinstance(colors[0], int)` dispatch. -/
inductive ColorId where
  | name (s : String)
  | idx (i : Nat)

/-- The `ValueError` message raised by `TUDcolors.get` for an invalid
`dtype` argument (apostrophes written as escapes). -/
def dtypeErrMsg (dtype : String) : String :=
  "The parameter dtype has to be either \x27float\x27 or \x27int\x27, instead it was \x27"
    ++ dtype ++ "\x27."

/-- Divide each channel of an RGB triplet by 255
(`val.astype(float) / 255`). -/
def toFloatTriplet (v : ℚ × ℚ × ℚ) : ℚ × ℚ × ℚ :=
  (v.1 / 255, v.2.1 / 255, v.2.2 / 255)

/-- Embedding of the scalar path of `TUDcolors.get`
(src/pypaperutils/design.py): validate `dtype`, look the color up by name
in `self.colors` (a missing name raises `KeyError`) or by index in
`self.palette` (an out-of-range index raises `IndexError`), and divide the
channels by 255 when `dtype == "float"`. -/
def TUDcolors_get (c : ColorId) (dtype : String) : Except String (ℚ × ℚ × ℚ) :=
  if dtype ≠ "float" ∧ dtype ≠ "int" then
    Except.error (dtypeErrMsg dtype)
  else
    match c with
    | ColorId.name s =>
        match colorsDict.lookup s with
        | none => Except.error ("KeyError: " ++ s)
        | some v =>
            Except.ok (if dtype = "float" then toFloatTriplet v else v)
    | ColorId.idx i =>
        match PALETTE[i]? with
        | none => Except.error "IndexError: tuple index out of range"
        | some v =>
            Except.ok (if dtype = "float" then toFloatTriplet v else v)

/-- The `AssertionError` message of `export_to_pgf` when the matplotlib
backend is not `pgf`. -/
def backendErrMsg (backend : String) : String :=
  "Set the matplotlib backend to \x22pgf\x22 before plotting in order to export to .pgf. The current backend is \x22"
    ++ backend ++ "\x22."

/-- `os.path.join` for a relative second component. -/
def pathJoin (a b : String) : String := a ++ "/" ++ b

/-- Embedding of `io.export_to_pgf` (src/pypaperutils/io.py).  The ambient
state is the active matplotlib backend and whether the path `dirname`
exists; the result is the path the figure is saved to (`none` when nothing
is saved), or the uncaught exception.  The source joins
`os.path.join(filename, dirname)` in that order, and when `dirname` does
not exist it calls `os.makedirs()` with no path argument, which raises
`TypeError` before anything is written. -/
def export_to_pgf (backend : String) (dirnameExists : Bool)
    (filename : String) (dirname : Option String) (save : Bool) :
    Except String (Option String) :=
  if backend ≠ "pgf" then
    Except.error (backendErrMsg backend)
  else if save then
    match dirname with
    | some d =>
        let path := pathJoin filename d ++ ".pgf"
        if ¬ dirnameExists then
          Except.error
            "TypeError: makedirs() missing 1 required positional argument: \x27name\x27"
        else
          Except.ok (some path)
    | none => Except.ok (some (filename ++ ".pgf"))
  else
    Except.ok none

/-- A string `m` contains `sub` as a contiguous substring. -/
def containsSub (m sub : String) : Prop :=
  ∃ pre post : List Char, m.data = pre ++ sub.data ++ post

/-! ## Helper lemmas -/

/-- With `p1 ≠ p2`, membership of `p0` in the line through `p1`, `p2` is
equivalent to the general-form line equation `a·x₀ + b·y₀ + c = 0` used by
`distance_to_line`. -/
theorem onLine_iff_lineEq (p0 p1 p2 : Point) (h : p1 ≠ p2) :
    onLine p0 p1 p2 ↔
      (p1.2 - p2.2) * p0.1 + (p2.1 - p1.1) * p0.2 + (p1.1 * p2.2 - p1.2 * p2.1) = 0 := by
  constructor
  · rintro ⟨t, hx, hy⟩
    rw [hx, hy]
    ring
  · intro hline
    have hsplit : p2.1 - p1.1 ≠ 0 ∨ p2.2 - p1.2 ≠ 0 := by
      by_contra hc
      push_neg at hc
      exact h (Prod.ext (by linarith [hc.1]) (by linarith [hc.2]))
    rcases hsplit with hb | ha
    · refine ⟨(p0.1 - p1.1) / (p2.1 - p1.1), ?_, ?_⟩
      · field_simp
      · field_simp
        linear_combination hline
    · refine ⟨(p0.2 - p1.2) / (p2.2 - p1.2), ?_, ?_⟩
      · field_simp
        linear_combination -hline
      · field_simp

/-! ## Claims -/

/-- C1: for line coefficients `a = p1.y − p2.y` and `b = p2.x − p1.x` both
nonzero, `distance_to_line` returns the general-form distance
`|a·x₀ + b·y₀ + c| / sqrt (a² + b²)` with `c = p1.x·p2.y − p1.y·p2.x`,
together with the foot of the perpendicular from the closed-form 2×2
solution. -/
theorem distance_to_line_general_formula (p0 p1 p2 : Point)
    (ha : p1.2 - p2.2 ≠ 0) (hb : p2.1 - p1.1 ≠ 0) :
    distance_to_line p0 p1 p2 =
      (|(p1.2 - p2.2) * p0.1 + (p2.1 - p1.1) * p0.2 + (p1.1 * p2.2 - p1.2 * p2.1)| /
         Real.sqrt ((p1.2 - p2.2) ^ 2 + (p2.1 - p1.1) ^ 2),
       (((p2.1 - p1.1) * ((p2.1 - p1.1) * p0.1 - (p1.2 - p2.2) * p0.2)
            - (p1.2 - p2.2) * (p1.1 * p2.2 - p1.2 * p2.1))
          / ((p1.2 - p2.2) ^ 2 + (p2.1 - p1.1) ^ 2),
        ((p1.2 - p2.2) * (-((p2.1 - p1.1) * p0.1) + (p1.2 - p2.2) * p0.2)
            - (p2.1 - p1.1) * (p1.1 * p2.2 - p1.2 * p2.1))
          / ((p1.2 - p2.2) ^ 2 + (p2.1 - p1.1) ^ 2))) := by
  simp only [distance_to_line, if_neg ha, if_neg hb]

/-- C1 witness: for p1 = (0,0), p2 = (1,1), p0 = (0,2) the result is
distance sqrt 2 with foot (1,1). -/
theorem distance_to_line_general_formula_witness :
    distance_to_line (0, 2) (0, 0) (1, 1) = (Real.sqrt 2, (1, 1)) := by
  have h := distance_to_line_general_formula (0, 2) (0, 0) (1, 1)
    (by norm_num) (by norm_num)
  rw [h]
  norm_num

/-- C2: for `p1 ≠ p2`, a horizontal line (`a = p1.y − p2.y = 0`) yields
distance `|p1.y − p0.y|` with foot `(p0.x, p1.y)`, and a vertical line
(`b = p2.x − p1.x = 0`) yields distance `|p1.x − p0.x|` with foot
`(p1.x, p0.y)`, the overrides being applied after the general formula. -/
theorem distance_to_line_axis_aligned (p0 p1 p2 : Point) (h : p1 ≠ p2) :
    (p1.2 - p2.2 = 0 →
      distance_to_line p0 p1 p2 = (|p1.2 - p0.2|, (p0.1, p1.2))) ∧
    (p2.1 - p1.1 = 0 →
      distance_to_line p0 p1 p2 = (|p1.1 - p0.1|, (p1.1, p0.2))) := by
  constructor
  · intro ha
    have hb : p2.1 - p1.1 ≠ 0 := by
      intro hb
      exact h (Prod.ext (by linarith) (by linarith))
    simp only [distance_to_line, if_pos ha, if_neg hb]
  · intro hb
    simp only [distance_to_line, if_pos hb]

/-- C2 witness: p1 = (0,0), p2 = (5,0), p0 = (3,7) gives (7, (3,0)); and
p1 = (0,0), p2 = (0,5), p0 = (7,3) gives (7, (0,3)). -/
theorem distance_to_line_axis_aligned_witness :
    distance_to_line (3, 7) (0, 0) (5, 0) = (7, (3, 0)) ∧
    distance_to_line (7, 3) (0, 0) (0, 5) = (7, (0, 3)) := by
  constructor
  · have h := (distance_to_line_axis_aligned (3, 7) (0, 0) (5, 0)
      (by norm_num [Prod.ext_iff])).1 (by norm_num)
    rw [h]
    norm_num
  · have h := (distance_to_line_axis_aligned (7, 3) (0, 0) (0, 5)
      (by norm_num [Prod.ext_iff])).2 (by norm_num)
    rw [h]
    norm_num

/-- C3: for `p1 ≠ p2` the returned distance is nonnegative, and it is zero
exactly when `p0` lies on the line through `p1` and `p2`. -/
theorem distance_to_line_nonneg_zero_iff (p0 p1 p2 : Point) (h : p1 ≠ p2) :
    0 ≤ (distance_to_line p0 p1 p2).1 ∧
      ((distance_to_line p0 p1 p2).1 = 0 ↔ onLine p0 p1 p2) := by
  rw [onLine_iff_lineEq p0 p1 p2 h]
  by_cases ha : p1.2 - p2.2 = 0 <;> by_cases hb : p2.1 - p1.1 = 0
  · exact absurd (Prod.ext (by linarith) (by linarith)) h
  · simp only [distance_to_line, if_pos ha, if_neg hb]
    refine ⟨abs_nonneg _, ?_⟩
    rw [abs_eq_zero]
    constructor
    · intro h1
      have h0 : p0.2 = p1.2 := by linarith
      have hy : p2.2 = p1.2 := by linarith
      rw [h0, hy]
      ring
    · intro hl
      have key : (p2.1 - p1.1) * (p0.2 - p1.2) = 0 := by
        linear_combination hl + (p1.1 - p0.1) * ha
      rcases mul_eq_zero.mp key with hk | hk
      · exact absurd hk hb
      · linarith
  · simp only [distance_to_line, if_pos hb]
    refine ⟨abs_nonneg _, ?_⟩
    rw [abs_eq_zero]
    constructor
    · intro h1
      linear_combination (p2.2 - p1.2) * h1 + (p0.2 - p1.2) * hb
    · intro hl
      have key : (p1.2 - p2.2) * (p0.1 - p1.1) = 0 := by
        linear_combination hl + (p1.2 - p0.2) * hb
      rcases mul_eq_zero.mp key with hk | hk
      · exact absurd hk ha
      · linarith
  · simp only [distance_to_line, if_neg ha, if_neg hb]
    have hpos : 0 < (p1.2 - p2.2) ^ 2 + (p2.1 - p1.1) ^ 2 := by positivity
    have hs : 0 < Real.sqrt ((p1.2 - p2.2) ^ 2 + (p2.1 - p1.1) ^ 2) :=
      Real.sqrt_pos.mpr hpos
    refine ⟨div_nonneg (abs_nonneg _) hs.le, ?_⟩
    rw [div_eq_zero_iff]
    constructor
    · rintro (h1 | h1)
      · exact abs_eq_zero.mp h1
      · exact absurd h1 hs.ne'
    · intro hl
      left
      rw [abs_eq_zero]
      exact hl

/-- C3 witness: instance at p0 = (0,2), p1 = (0,0), p2 = (1,1). -/
theorem distance_to_line_nonneg_zero_iff_witness :
    0 ≤ (distance_to_line (0, 2) (0, 0) (1, 1)).1 ∧
      ((distance_to_line (0, 2) (0, 0) (1, 1)).1 = 0 ↔
        onLine (0, 2) (0, 0) (1, 1)) :=
  distance_to_line_nonneg_zero_iff (0, 2) (0, 0) (1, 1)
    (by norm_num [Prod.ext_iff])

/-- C4: for `p1 ≠ p2`, swapping the two line points changes neither the
distance nor the foot point. -/
theorem distance_to_line_swap (p0 p1 p2 : Point) (h : p1 ≠ p2) :
    distance_to_line p0 p1 p2 = distance_to_line p0 p2 p1 := by
  by_cases ha : p1.2 - p2.2 = 0 <;> by_cases hb : p2.1 - p1.1 = 0
  · exact absurd (Prod.ext (by linarith) (by linarith)) h
  · have ha' : p2.2 - p1.2 = 0 := by linarith
    have hb' : ¬ p1.1 - p2.1 = 0 := fun hc => hb (by linarith)
    simp only [distance_to_line, if_pos ha, if_pos ha', if_neg hb, if_neg hb']
    have hyy : p1.2 = p2.2 := by linarith
    rw [hyy]
  · have hb' : p1.1 - p2.1 = 0 := by linarith
    simp only [distance_to_line, if_pos hb, if_pos hb']
    have hxx : p1.1 = p2.1 := by linarith
    rw [hxx]
  · have ha' : ¬ p2.2 - p1.2 = 0 := fun hc => ha (by linarith)
    have hb' : ¬ p1.1 - p2.1 = 0 := fun hc => hb (by linarith)
    simp only [distance_to_line, if_neg ha, if_neg ha', if_neg hb, if_neg hb']
    refine Prod.ext ?_ (Prod.ext ?_ ?_)
    · show _ = _
      have h1 : |(p1.2 - p2.2) * p0.1 + (p2.1 - p1.1) * p0.2 + (p1.1 * p2.2 - p1.2 * p2.1)|
          = |(p2.2 - p1.2) * p0.1 + (p1.1 - p2.1) * p0.2 + (p2.1 * p1.2 - p2.2 * p1.1)| := by
        rw [← abs_neg]
        ring_nf
      have h2 : (p1.2 - p2.2) ^ 2 + (p2.1 - p1.1) ^ 2
          = (p2.2 - p1.2) ^ 2 + (p1.1 - p2.1) ^ 2 := by ring
      simp only [h1, h2]
    · show _ = _
      have h2 : (p1.2 - p2.2) ^ 2 + (p2.1 - p1.1) ^ 2
          = (p2.2 - p1.2) ^ 2 + (p1.1 - p2.1) ^ 2 := by ring
      rw [h2]
      ring
    · show _ = _
      have h2 : (p1.2 - p2.2) ^ 2 + (p2.1 - p1.1) ^ 2
          = (p2.2 - p1.2) ^ 2 + (p1.1 - p2.1) ^ 2 := by ring
      rw [h2]
      ring

/-- C4 witness: swap symmetry at p0 = (0,2), p1 = (0,0), p2 = (1,1). -/
theorem distance_to_line_swap_witness :
    distance_to_line (0, 2) (0, 0) (1, 1) =
      distance_to_line (0, 2) (1, 1) (0, 0) :=
  distance_to_line_swap (0, 2) (0, 0) (1, 1) (by norm_num [Prod.ext_iff])

/-- C5: `draw_distance_to_line` returns exactly the `(distance, foot)` pair
computed by `distance_to_line` on the same points; the annotation drawing
does not change the computed values, for any offset, width, drawPoints,
linewidth and color arguments. -/
theorem draw_distance_to_line_returns_same_pair (ax : List AxCmd)
    (p0 p1 p2 : Point) (offset width : ℝ) (drawPoints : Bool)
    (linewidth : ℝ) (color : String) :
    (draw_distance_to_line ax p0 p1 p2 offset width drawPoints linewidth
        color).2 =
      distance_to_line p0 p1 p2 := rfl

/-- C6: the color lookup round-trip: `get "blauw" "int"` is (0,118,194),
`get 3 "int"` is the same triplet, and `get "blauw" "float"` is each
channel divided by 255 exactly. -/
theorem TUDcolors_get_blauw_roundtrip :
    TUDcolors_get (ColorId.name "blauw") "int" = Except.ok (0, 118, 194) ∧
    TUDcolors_get (ColorId.idx 3) "int" = Except.ok (0, 118, 194) ∧
    TUDcolors_get (ColorId.name "blauw") "float" =
      Except.ok (0 / 255, 118 / 255, 194 / 255) := by
  refine ⟨rfl, rfl, rfl⟩

/-- C7: any dtype other than "float" or "int" makes `TUDcolors.get` raise
the validation error, whose message names both legal values; with a legal
dtype the only errors that can be raised are lookup errors. -/
theorem TUDcolors_get_dtype_validation (dtype : String) (c : ColorId)
    (h1 : dtype ≠ "float") (h2 : dtype ≠ "int") :
    TUDcolors_get c dtype = Except.error (dtypeErrMsg dtype) ∧
    containsSub (dtypeErrMsg dtype) "\x27float\x27" ∧
    containsSub (dtypeErrMsg dtype) "\x27int\x27" ∧
    ∀ (cc : ColorId) (d : String), (d = "float" ∨ d = "int") →
      ∀ m : String, TUDcolors_get cc d = Except.error m →
        (∃ s, m = "KeyError: " ++ s) ∨
          m = "IndexError: tuple index out of range" := by
  refine ⟨?_, ?_, ?_, ?_⟩
  · simp only [TUDcolors_get, if_pos (And.intro h1 h2)]
  · refine ⟨("The parameter dtype has to be either ").data,
      (" or \x27int\x27, instead it was \x27").data ++ dtype.data ++ ("\x27.").data, ?_⟩
    simp [dtypeErrMsg, String.data_append]
  · refine ⟨("The parameter dtype has to be either \x27float\x27 or ").data,
      (", instead it was \x27").data ++ dtype.data ++ ("\x27.").data, ?_⟩
    simp [dtypeErrMsg, String.data_append]
  · rintro cc d (rfl | rfl) m hm <;> cases cc with
    | name s =>
        rcases hx : colorsDict.lookup s with _ | v <;>
          simp [TUDcolors_get, hx] at hm <;>
          exact Or.inl ⟨s, hm.symm⟩
    | idx i =>
        rcases hx : PALETTE[i]? with _ | v <;>
          simp [TUDcolors_get, hx] at hm <;>
          exact Or.inr hm.symm

/-- C7 witness: instance at dtype = "hex" and the color "blauw". -/
theorem TUDcolors_get_dtype_validation_witness :
    TUDcolors_get (ColorId.name "blauw") "hex" =
        Except.error (dtypeErrMsg "hex") ∧
    containsSub (dtypeErrMsg "hex") "\x27float\x27" ∧
    containsSub (dtypeErrMsg "hex") "\x27int\x27" ∧
    ∀ (cc : ColorId) (d : String), (d = "float" ∨ d = "int") →
      ∀ m : String, TUDcolors_get cc d = Except.error m →
        (∃ s, m = "KeyError: " ++ s) ∨
          m = "IndexError: tuple index out of range" :=
  TUDcolors_get_dtype_validation "hex" (ColorId.name "blauw")
    (by decide) (by decide)

/-- C8: with the pgf backend, save = true and a missing target directory,
`export_to_pgf` raises `TypeError` from the no-argument `os.makedirs()`
call instead of creating the directory and writing the file; and even when
the directory exists the path is `os.path.join(filename, dirname)`, not
dirname joined with filename. -/
theorem export_to_pgf_missing_dir_typeerror :
    export_to_pgf "pgf" false "plot" (some "figures") true =
      Except.error
        "TypeError: makedirs() missing 1 required positional argument: \x27name\x27" ∧
    export_to_pgf "pgf" true "plot" (some "figures") true =
      Except.ok (some "plot/figures.pgf") :=
  ⟨rfl, rfl⟩

/-- C9 counterexample: at the degenerate input p1 = p2 = (0,0) with
p0 = (3,4) the function does not fault: it returns the well-defined pair
(3, (0,4)), i.e. (|p1.x − p0.x|, (p1.x, p0.y)), because both overrides
replace the general-form result. -/
theorem distance_to_line_degenerate_counterexample :
    distance_to_line (3, 4) (0, 0) (0, 0) = (3, (0, 4)) := by
  simp [distance_to_line]

/-- C9 (amended): for p1 = p2 both coefficients a and b are zero and the
general-form denominator sqrt (a²+b²) is zero, so the general path divides
by zero; no error is caught or reported — the overrides fire and the
function returns (|p1.x − p0.x|, (p1.x, p0.y)). -/
theorem distance_to_line_degenerate (p0 p1 p2 : Point) (h : p1 = p2) :
    (p1.2 - p2.2 = 0 ∧ p2.1 - p1.1 = 0 ∧
      Real.sqrt ((p1.2 - p2.2) ^ 2 + (p2.1 - p1.1) ^ 2) = 0) ∧
    distance_to_line p0 p1 p2 = (|p1.1 - p0.1|, (p1.1, p0.2)) := by
  subst h
  refine ⟨⟨sub_self _, sub_self _, by norm_num⟩, ?_⟩
  simp [distance_to_line]

/-- C9 witness: instance at p0 = (3,4), p1 = p2 = (0,0). -/
theorem distance_to_line_degenerate_witness :
    ((0 : ℝ) - 0 = 0 ∧ (0 : ℝ) - 0 = 0 ∧
      Real.sqrt (((0 : ℝ) - 0) ^ 2 + ((0 : ℝ) - 0) ^ 2) = 0) ∧
    distance_to_line (3, 4) ((0 : ℝ), (0 : ℝ)) (0, 0) =
      (|(0 : ℝ) - 3|, ((0 : ℝ), (4 : ℝ))) :=
  distance_to_line_degenerate (3, 4) (0, 0) (0, 0) rfl

/-- C10: the `linewidth` parameter of `draw_distance_to_line` has no
observable effect: any two linewidth values produce the identical list of
drawn primitives and the identical returned pair. -/
theorem draw_distance_to_line_linewidth_independent (ax : List AxCmd)
    (p0 p1 p2 : Point) (offset width : ℝ) (drawPoints : Bool)
    (color : String) (lw lw2 : ℝ) :
    draw_distance_to_line ax p0 p1 p2 offset width drawPoints lw color =
      draw_distance_to_line ax p0 p1 p2 offset width drawPoints lw2 color :=
  rfl

end Pypaperutils
